import Mathlib

/-!
Verification development for the DashboardFiscal repository
(src/DashboarFiscalContabil.py).  The Python source is shallowly embedded:
pandas cell values become the inductive type Pv, pandas timestamps become Ymd,
numeric cells become Rat, fallible library calls become Except over an explicit
Python-exception type.  Library behaviour (pandas.to_datetime with an explicit
strptime format including the nanosecond Timestamp range bounds, column
selection with its KeyError on missing columns, Python's format(x, ",.2f")
including its behaviour on datetime objects) is modelled at the level of its
documented semantics; the IEEE-754 binary representation of floats is not
modelled, so rounding acts on exact rationals.
-/

namespace DashFiscal

/- Batteries marks rational arithmetic irreducible, which blocks the
elaborator-side evaluation used by decide on concrete inputs; the kernel
ignores reducibility, so restoring the default is harmless. -/
attribute [local semireducible] Rat.mul Rat.add Rat.sub Rat.inv Rat.ofScientific

/-- A calendar date (year, month, day), the embedding of a pandas Timestamp. -/
structure Ymd where
  y : Nat
  m : Nat
  d : Nat
deriving DecidableEq, Repr

/-- A Python/pandas cell value: a float NaN, a number, a string, or a
datetime-like value. -/
inductive Pv where
  | nan : Pv
  | num : Rat → Pv
  | str : String → Pv
  | date : Ymd → Pv
deriving DecidableEq, Repr

/-- The Python exceptions relevant to the embedded code.  The source's
try/except in converter_mes catches exactly ValueError and TypeError. -/
inductive PyErr where
  | valueError : PyErr
  | typeError : PyErr
  | keyError : PyErr
  | otherError : PyErr
deriving DecidableEq, Repr

/-! ## DateNormalizer: converter_mes (source lines 14-21)

The source tries pd.to_datetime(valor, format=fmt) for each format in
["%Y-%m", "%m/%Y", "%B %Y", "%b %Y"], returning the first success and pd.NaT
when every attempt raises ValueError/TypeError.  The strptime format semantics
(CPython TimeRE, which pandas' array_strptime follows) are embedded below:
%Y is exactly four digits, %m is 1[0-2]|0[1-9]|[1-9], %B/%b are the English
month names matched case-insensitively, a literal space matches one or more
whitespace characters, and the whole string must be consumed. -/

def digitVal (c : Char) : Nat := c.toNat - '0'.toNat

def natOfDigits (l : List Char) : Nat := l.foldl (fun a c => 10 * a + digitVal c) 0

/-- strptime %Y: exactly four digits; datetime requires year >= MINYEAR = 1
(year 0000 makes datetime raise ValueError, which the source catches). -/
def parseYear4 : List Char → Option Nat
  | [a, b, c, d] =>
    if a.isDigit && b.isDigit && c.isDigit && d.isDigit then
      let y := natOfDigits [a, b, c, d]
      if 1 ≤ y then some y else none
    else none
  | _ => none

/-- strptime %m over a two-character sequence: 1[0-2] | 0[1-9]. -/
def parseMonth2 (c1 c2 : Char) : Option Nat :=
  if c1 = '1' && ('0' ≤ c2 && c2 ≤ '2') then some (10 + digitVal c2)
  else if c1 = '0' && ('1' ≤ c2 && c2 ≤ '9') then some (digitVal c2)
  else none

/-- strptime %m at the end of the input (one or two characters remain):
1[0-2] | 0[1-9] | [1-9], with the whole remainder consumed. -/
def parseMonthTail : List Char → Option Nat
  | [c] => if c.isDigit && c != '0' then some (digitVal c) else none
  | [c1, c2] => parseMonth2 c1 c2
  | _ => none

/-- Format "%Y-%m": four year digits, a literal dash, then the month. -/
def parseYM (s : String) : Option (Nat × Nat) :=
  match s.data with
  | y1 :: y2 :: y3 :: y4 :: '-' :: ms =>
    if y1.isDigit && y2.isDigit && y3.isDigit && y4.isDigit then
      match parseMonthTail ms with
      | some m =>
        let y := natOfDigits [y1, y2, y3, y4]
        if 1 ≤ y then some (y, m) else none
      | none => none
    else none
  | _ => none

/-- Format "%m/%Y": the month (one or two digits), a literal slash, then four
year digits.  The one-digit month alternative [1-9] applies when the second
character is already the slash. -/
def parseMY (s : String) : Option (Nat × Nat) :=
  match s.data with
  | c1 :: '/' :: rest =>
    if c1.isDigit && c1 != '0' then (parseYear4 rest).map (fun y => (y, digitVal c1))
    else none
  | c1 :: c2 :: '/' :: rest =>
    match parseMonth2 c1 c2 with
    | some m => (parseYear4 rest).map (fun y => (y, m))
    | none => none
  | _ => none

/-- ASCII lowercasing, as strptime matches month names case-insensitively. -/
def lowerAscii (c : Char) : Char :=
  if 'A' ≤ c && c ≤ 'Z' then Char.ofNat (c.toNat + 32) else c

def isWs (c : Char) : Bool := c = ' ' || c = '\t' || c = '\n' || c = '\r'

def dropWsAll : List Char → List Char
  | c :: rest => if isWs c then dropWsAll rest else c :: rest
  | [] => []

/-- A literal space in a strptime format matches one or more whitespace
characters. -/
def afterWs1 : List Char → Option (List Char)
  | c :: rest => if isWs c then some (dropWsAll rest) else none
  | [] => none

/-- Strip a lowercase pattern from the input, comparing case-insensitively. -/
def stripCI : List Char → List Char → Option (List Char)
  | [], rest => some rest
  | _ :: _, [] => none
  | p :: ps, c :: cs => if lowerAscii c = p then stripCI ps cs else none

/-- English month names for %B (the C-locale default used by strptime). -/
def monthFull : List (String × Nat) :=
  [("january", 1), ("february", 2), ("march", 3), ("april", 4), ("may", 5),
   ("june", 6), ("july", 7), ("august", 8), ("september", 9), ("october", 10),
   ("november", 11), ("december", 12)]

/-- English abbreviated month names for %b. -/
def monthAbbr : List (String × Nat) :=
  [("jan", 1), ("feb", 2), ("mar", 3), ("apr", 4), ("may", 5), ("jun", 6),
   ("jul", 7), ("aug", 8), ("sep", 9), ("oct", 10), ("nov", 11), ("dec", 12)]

/-- Formats "%B %Y" / "%b %Y": a month name from the table, whitespace, then
four year digits.  No table entry is a prefix of another, so committing to the
first matching name agrees with regex alternation. -/
def parseNameYear (tbl : List (String × Nat)) (s : String) : Option (Nat × Nat) :=
  tbl.findSome? (fun e =>
    match stripCI e.1.data s.data with
    | some rest =>
      match afterWs1 rest with
      | some r2 => (parseYear4 r2).map (fun y => (y, e.2))
      | none => none
    | none => none)

/-- The four formats tried by converter_mes, in source order. -/
inductive Fmt where
  | Ym : Fmt
  | mY : Fmt
  | BY : Fmt
  | bY : Fmt
deriving DecidableEq, Repr

/-- formatos = ["%Y-%m", "%m/%Y", "%B %Y", "%b %Y"] (source line 15). -/
def formatos : List Fmt := [Fmt.Ym, Fmt.mY, Fmt.BY, Fmt.bY]

/-- Pure result of matching one strptime format against a string:
(year, month) on success. -/
def rawParse (f : Fmt) (s : String) : Option (Nat × Nat) :=
  match f with
  | Fmt.Ym => parseYM s
  | Fmt.mY => parseMY s
  | Fmt.BY => parseNameYear monthFull s
  | Fmt.bY => parseNameYear monthAbbr s

/-- Lexicographic order on calendar dates (how pandas orders Timestamps). -/
def ymdLe (a b : Ymd) : Bool :=
  decide (a.y < b.y) ||
    (decide (a.y = b.y) &&
      (decide (a.m < b.m) || (decide (a.m = b.m) && decide (a.d ≤ b.d))))

/-- The calendar days whose midnight is representable as a pandas nanosecond
Timestamp: Timestamp.min is 1677-09-21T12:43:41 and Timestamp.max is
2262-04-11T23:47:16, so midnights from 1677-09-22 through 2262-04-11 fit.
Building a Timestamp outside this range raises OutOfBoundsDatetime, a
ValueError subclass. -/
def tsInRange (d : Ymd) : Bool := ymdLe ⟨1677, 9, 22⟩ d && ymdLe d ⟨2262, 4, 11⟩

/-- One pd.to_datetime(valor, format=fmt) call.  A string that fails the
format raises ValueError, and a string that parses to a date outside the
Timestamp range raises OutOfBoundsDatetime (a ValueError subclass); NaN
returns NaT (modelled as none); a non-string, non-datetime scalar raises
TypeError; a datetime value passes through unchanged (the format is
ignored).  strptime fills the unspecified day with 1, so a parsed month
label denotes the first day of its month. -/
def tryFormat (fmt : Fmt) (v : Pv) : Except PyErr (Option Ymd) :=
  match v with
  | Pv.str s =>
    match rawParse fmt s with
    | some p =>
      if tsInRange ⟨p.1, p.2, 1⟩ then Except.ok (some ⟨p.1, p.2, 1⟩)
      else Except.error PyErr.valueError
    | none => Except.error PyErr.valueError
  | Pv.nan => Except.ok none
  | Pv.num _ => Except.error PyErr.typeError
  | Pv.date d => Except.ok (some d)

/-- The observable outcome of one pd.to_datetime(label, format=fmt) attempt
on a string: a date (day 1) when the format matches and the result is in the
Timestamp range, none when the attempt raises a caught exception (format
mismatch, or OutOfBoundsDatetime on an in-format but out-of-range label). -/
def fmtAttempt (f : Fmt) (s : String) : Option Ymd :=
  match rawParse f s with
  | some p => if tsInRange ⟨p.1, p.2, 1⟩ then some ⟨p.1, p.2, 1⟩ else none
  | none => none

/-- The except clause of converter_mes catches exactly (ValueError, TypeError). -/
def isCaught (e : PyErr) : Bool := e = PyErr.valueError || e = PyErr.typeError

/-- The for-loop of converter_mes: return the first successful parse, swallow
caught exceptions and move on, propagate anything else, and return pd.NaT
(none) when the formats are exhausted. -/
def convLoop : List Fmt → Pv → Except PyErr (Option Ymd)
  | [], _ => Except.ok none
  | f :: fs, v =>
    match tryFormat f v with
    | Except.ok r => Except.ok r
    | Except.error e => if isCaught e then convLoop fs v else Except.error e

/-- converter_mes (source lines 14-21), with Python exceptions explicit. -/
def converter_mes_exc (v : Pv) : Except PyErr (Option Ymd) := convLoop formatos v

/-- converter_mes as the pure function the rest of the pipeline consumes;
by converter_mes_total below the error branch is unreachable. -/
def converter_mes (v : Pv) : Option Ymd :=
  match converter_mes_exc v with
  | Except.ok r => r
  | Except.error _ => none

/-! ## format_brl (source lines 27-33)

format(x, ",.2f") groups the integer part with "," every three digits and uses
"." as the decimal point with exactly two decimals; the source then swaps the
two separator characters via the X dance (","->"X", "."->",", "X"->".").
Since the formatted number contains no "X", the three sequential replaces are
exactly a simultaneous swap of "," and ".", which is how swapSeps is written.
Python rounds half-to-even; the binary float representation is not modelled,
so rounding acts on the exact rational value. -/

def swapChar (c : Char) : Char :=
  if c = ',' then '.' else if c = '.' then ',' else c

def swapSeps (s : String) : String := String.mk (s.data.map swapChar)

/-- Decimal digits, least significant first, with explicit fuel (structural
recursion so that the kernel can evaluate it; fuel n suffices since
n / 10 < n for positive n). -/
def natDigitsRevAux : Nat → Nat → List Char
  | 0, _ => []
  | fuel + 1, n => if n = 0 then [] else Nat.digitChar (n % 10) :: natDigitsRevAux fuel (n / 10)

/-- Decimal digits of n, least significant first (empty for 0). -/
def natDigitsRev (n : Nat) : List Char := natDigitsRevAux n n


def intRevDigits (n : Nat) : List Char := if n = 0 then ['0'] else natDigitsRev n

/-- Insert "," after every three characters of a least-significant-first digit
list (i.e. thousands grouping seen from the right). -/
def group3rev : List Char → List Char
  | a :: b :: c :: d :: rest => a :: b :: c :: ',' :: group3rev (d :: rest)
  | l => l

/-- The integer part of format(x, ",.2f"): digits grouped by "," in threes. -/
def groupedInt (n : Nat) : List Char := (group3rev (intRevDigits n)).reverse

/-- Exactly two fraction digits. -/
def twoDigits (n : Nat) : List Char :=
  [Nat.digitChar (n / 10 % 10), Nat.digitChar (n % 10)]

/-- Round to the nearest integer, ties to even (Python's float formatting
rule, applied here to the exact rational value). -/
def roundHalfEven (x : Rat) : Int :=
  let n := x.floor
  let r := x - n
  if r < 1/2 then n
  else if 1/2 < r then n + 1
  else if n % 2 = 0 then n else n + 1

/-- format(x, ",.2f"): sign, comma-grouped integer part, ".", two decimals. -/
def pyFormat2f (q : Rat) : String :=
  let m := |q|
  let cents := (roundHalfEven (100 * m)).toNat
  let sign : List Char := if q < 0 then ['-'] else []
  String.mk (sign ++ groupedInt (cents / 100) ++ ['.'] ++ twoDigits (cents % 100))

/-- format_brl (source lines 27-33).  NaN or a numeric zero renders as "";
another number is formatted and separator-swapped; a string makes format()
raise ValueError so the bare except clause returns it unchanged; a datetime
does NOT raise: datetime.__format__ hands the non-empty spec to strftime,
which returns ",.2f" verbatim (it holds no percent directives), and the
replace chain then swaps the separators, yielding the literal ".,2f". -/
def format_brl (x : Pv) : Pv :=
  match x with
  | Pv.nan => Pv.str ""
  | Pv.num q => if q = 0 then Pv.str "" else Pv.str (swapSeps (pyFormat2f q))
  | Pv.str s => Pv.str s
  | Pv.date _ => Pv.str (swapSeps ",.2f")

/-- Modelled from the spec: the currency-prefixed formatting variant that
lives in the repository's near-duplicate file variants outside src/.  Per the
spec it renders the same digit grouping as the plain convention with a
currency marker prepended, and (following the suppress-on-zero primary
contract) keeps the empty rendering for zero/missing. -/
def format_brl_currency (x : Pv) : Pv :=
  match format_brl x with
  | Pv.str s => Pv.str (if s = "" then "" else "R$ " ++ s)
  | y => y

/-! ## The dataframe model

A row is an association list from column names to cell values; a frame is the
list of column names plus the rows.  Reading a present column of a row yields
its cell (NaN when the cell is empty), matching pandas access df[col]. -/

/-- The required month-label column name (exact, diacritic included). -/
def mesCol : String := "MÊS"

/-- One spreadsheet row: column name to cell value. -/
structure PRow where
  cells : List (String × Pv)
deriving DecidableEq, Repr

/-- Cell of column c in row r; an absent entry is an empty (NaN) cell. -/
def PRow.get (r : PRow) (c : String) : Pv := (r.cells.lookup c).getD Pv.nan

/-- A dataframe: its column names and its rows. -/
structure Frame where
  cols : List String
  rows : List PRow
deriving DecidableEq, Repr

/-- Numeric view of a cell: pandas sums skip NaN, and a malformed
(non-numeric) cell contributes 0 per the spec's MalformedCell policy. -/
def toNum : Pv → Rat
  | Pv.num q => q
  | _ => 0

/-- df[c].sum() if c in df.columns else 0 (source lines 145-148). -/
def colSum (df : Frame) (c : String) : Rat :=
  if c ∈ df.cols then df.rows.foldl (fun acc r => acc + toNum (r.get c)) 0 else 0

/-- The four headline totals (source lines 145-148): total_vendas,
total_compras, total_das, total_folha.  The metric checklist
selected_metrics is in scope in the source but unused here. -/
def computeSummary (selected : List String) (df : Frame) : Rat × Rat × Rat × Rat :=
  (colSum df "VENDAS", colSum df "COMPRAS", colSum df "DAS", colSum df "FOLHA")

/-- metrics_options (source lines 122-126): the 14-name metric vocabulary. -/
def metrics_options : List String :=
  ["COMPRAS", "VENDAS", "DAS", "FOLHA", "PRO-LABORE", "FGTS",
   "MULTA FGTS", "RESCISÃO", "FÉRIAS", "13 SALARIO", "DCTFWEB",
   "Contrib. Assistencial", "ISSQN Retido", "CARTAO E PIX"]

/-- despesas_list (source lines 156-160): the 12-name expense vocabulary. -/
def despesas_list : List String :=
  ["COMPRAS", "DAS", "FOLHA", "PRO-LABORE", "FGTS",
   "MULTA FGTS", "RESCISÃO", "FÉRIAS", "13 SALARIO", "DCTFWEB",
   "Contrib. Assistencial", "ISSQN Retido"]

/-- despesas_selecionadas (source line 161): the expense vocabulary
intersected with the selected metrics, in vocabulary order. -/
def despesas_selecionadas (selected : List String) : List String :=
  despesas_list.filter (fun c => selected.contains c)

/-- Per-row df[despesas_selecionadas].sum(axis=1): NaN cells skipped.  This
is only reached by despesasTotais after the column-presence check that
models pandas column selection, so here a lookup miss is an empty (NaN)
cell of a present column. -/
def rowDespesasSum (selected : List String) (r : PRow) : Rat :=
  (despesas_selecionadas selected).foldl (fun acc c => acc + toNum (r.get c)) 0

/-- Source lines 162-163: the derived "Despesas Totais" column is created
only when despesas_selecionadas is non-empty (ok none models its omission).
When it is non-empty, df[despesas_selecionadas] raises KeyError and aborts
the run if any selected column is missing from the frame; otherwise the
column holds the per-row sums. -/
def despesasTotais (selected : List String) (df : Frame) : Except PyErr (Option (List Rat)) :=
  let ds := despesas_selecionadas selected
  if ds = [] then Except.ok none
  else if ds.all (fun c => df.cols.contains c) then
    Except.ok (some (df.rows.map (rowDespesasSum selected)))
  else Except.error PyErr.keyError

/-! ## Axis resolution (source lines 97-106) and range filter (113-119) -/

/-- Canonical date of a row: converter_mes applied to its month label. -/
def rowDate (r : PRow) : Option Ymd := converter_mes (r.get mesCol)

def optDateLe : Option Ymd → Option Ymd → Bool
  | none, _ => true
  | some _, none => false
  | some a, some b => ymdLe a b

/-- Rank used to totalize the cell order across constructors.  The claims
only concern comparisons within one constructor (labels all strings, dates
all present); the cross-constructor order is a total tie-break, not a model
of pandas (which would raise on mixed-type sorts). -/
def pvRank : Pv → Nat
  | Pv.nan => 0
  | Pv.num _ => 1
  | Pv.str _ => 2
  | Pv.date _ => 3

/-- Total order on cells: by rank, then by payload.  On two strings this is
exactly the code-point lexicographic order pandas uses to sort labels. -/
def pvLeB (a b : Pv) : Bool :=
  match a, b with
  | Pv.num p, Pv.num q => decide (p ≤ q)
  | Pv.str s, Pv.str t => decide (s ≤ t)
  | Pv.date d, Pv.date e => ymdLe d e
  | a, b => decide (pvRank a ≤ pvRank b)

/-- The raw label string of a row (rows under consideration carry string
labels; any other cell reads as the empty string). -/
def labelStr (r : PRow) : String :=
  match r.get mesCol with
  | Pv.str s => s
  | _ => ""

/-- df.sort_values("MÊS"): order rows by their raw month label. -/
def rowLabelLeP (a b : PRow) : Prop := pvLeB (a.get mesCol) (b.get mesCol) = true

/-- df.sort_values("Data"): order rows by their canonical date. -/
def rowDateLeP (a b : PRow) : Prop := optDateLe (rowDate a) (rowDate b) = true

instance : DecidableRel rowLabelLeP := fun a b =>
  inferInstanceAs (Decidable (pvLeB (a.get mesCol) (b.get mesCol) = true))

instance : DecidableRel rowDateLeP := fun a b =>
  inferInstanceAs (Decidable (optDateLe (rowDate a) (rowDate b) = true))

/-- The two axis kinds of the spec: RAW_LABEL and CALENDAR. -/
inductive Axis where
  | rawLabel : Axis
  | calendar : Axis
deriving DecidableEq, Repr

/-- Source lines 97-106: apply converter_mes to every row's MÊS label; if
every result is null, keep all rows sorted by the raw label (x_axis = MÊS);
otherwise drop rows with a null date and sort by the date (x_axis = Data). -/
def resolveAxis (rows : List PRow) : Axis × List PRow :=
  if rows.all (fun r => (rowDate r).isNone) then
    (Axis.rawLabel, List.insertionSort rowLabelLeP rows)
  else
    (Axis.calendar, List.insertionSort rowDateLeP (rows.filter (fun r => (rowDate r).isSome)))

/-- Source lines 113-119: the date-range filter runs only on a calendar axis
(the widget exists only when x_axis = Data) and keeps rows whose date lies in
[start, stop] inclusive; on a raw-label axis the dataset is unchanged. -/
def filterByRange (axis : Axis) (rows : List PRow) (start stop : Ymd) : List PRow :=
  match axis with
  | Axis.calendar =>
    rows.filter (fun r =>
      match rowDate r with
      | some d => ymdLe start d && ymdLe d stop
      | none => false)
  | Axis.rawLabel => rows

/-! ## Display table (source lines 270-283) -/

/-- A display column carries a pandas dtype: numeric (with possible NaN
cells) or textual; is_numeric_dtype inspects exactly this. -/
inductive ColVals where
  | nums : List (Option Rat) → ColVals
  | strs : List String → ColVals
deriving DecidableEq, Repr

structure Col where
  name : String
  vals : ColVals
deriving DecidableEq, Repr

/-- Python str.upper restricted to the characters that occur in this
pipeline's column names (ASCII letters and the circumflexed e). -/
def pyUpperChar (c : Char) : Char := if c = 'ê' then 'Ê' else c.toUpper

def pyUpper (s : String) : String := String.mk (s.data.map pyUpperChar)

/-- A numeric column's sum over its data rows, NaN cells skipped. -/
def sumOpt (vs : List (Option Rat)) : Rat := vs.foldl (fun a v => a + v.getD 0) 0

/-- One entry of total_values (source lines 270-275): the column sum for a
numeric column, the "Total" marker for the label column, "" otherwise. -/
def totalCell (c : Col) : Pv :=
  match c.vals with
  | ColVals.nums vs => Pv.num (sumOpt vs)
  | ColVals.strs _ => Pv.str (if pyUpper c.name = mesCol then "Total" else "")

/-- The data cells of a column as Python values. -/
def colCells (c : Col) : List Pv :=
  match c.vals with
  | ColVals.nums vs =>
    vs.map (fun v =>
      match v with
      | some q => Pv.num q
      | none => Pv.nan)
  | ColVals.strs vs => vs.map Pv.str

/-- pd.concat([display_df, total_df]) (source line 277), per column: the data
cells followed by the single synthetic totals cell. -/
def withTotalsRow (c : Col) : List Pv := colCells c ++ [totalCell c]

/-- The applymap lambda (source lines 280-282): numeric NaN or zero becomes
"", other numbers are formatted, everything else passes through. -/
def displayMapCell (x : Pv) : Pv :=
  match x with
  | Pv.nan => Pv.str ""
  | Pv.num q => if q = 0 then Pv.str "" else format_brl (Pv.num q)
  | x => x

/-- display_df after the totals row and the formatting pass, column-wise. -/
def buildDisplayTable (cols : List Col) : List (String × List Pv) :=
  cols.map (fun c => (c.name, (withTotalsRow c).map displayMapCell))

/-! ## Pipeline entry (source lines 92-94 and onwards) -/

/-- The st.error message of source line 93 (the quoted column name is kept
without its Python quotation marks). -/
def pipelineErrorMsg : String := "A coluna MÊS não foi encontrada no arquivo."

/-- The aggregation outputs the presentation layer consumes. -/
structure PipeOut where
  axis : Axis
  rows : List PRow
  totals : Rat × Rat × Rat × Rat
deriving DecidableEq, Repr

/-- The aggregation stages that run after the column check: axis resolution
followed by the headline summary over the resolved rows. -/
def aggregate (df : Frame) : PipeOut :=
  let p := resolveAxis df.rows
  { axis := p.1, rows := p.2, totals := computeSummary metrics_options ⟨df.cols, p.2⟩ }

/-- Source lines 92-94: if the MÊS column is absent the run stops with the
error before any aggregation; otherwise the pipeline proceeds. -/
def pipeline (df : Frame) : Except String PipeOut :=
  if mesCol ∈ df.cols then Except.ok (aggregate df) else Except.error pipelineErrorMsg

/-! ## Concrete fixtures used by the witnesses and examples -/

/-- A row carrying only a month label. -/
def exampleMonthRow (lab : String) : PRow := ⟨[(mesCol, Pv.str lab)]⟩

def exampleYearLabels : List String :=
  ["2023-01", "2023-02", "2023-03", "2023-04", "2023-05", "2023-06",
   "2023-07", "2023-08", "2023-09", "2023-10", "2023-11", "2023-12"]

/-- Twelve rows spanning January through December 2023. -/
def exampleYearRows : List PRow := exampleYearLabels.map exampleMonthRow

/-- A small frame with the label column present. -/
def exampleFrame : Frame :=
  ⟨[mesCol, "VENDAS", "DAS"],
   [⟨[(mesCol, Pv.str "2023-01"), ("VENDAS", Pv.num 100), ("DAS", Pv.num 10)]⟩,
    ⟨[(mesCol, Pv.str "2023-02"), ("VENDAS", Pv.num 200)]⟩]⟩

/-- A frame lacking the required label column. -/
def exampleFrameNoMes : Frame := ⟨["VENDAS"], []⟩

/-! ## Helper lemmas -/

/-- Folding additions of f over a list starting from a equals a plus the sum
of the mapped list. -/
theorem foldl_add_eq_sum {α : Type} (f : α → Rat) (l : List α) (a : Rat) :
    l.foldl (fun acc x => acc + f x) a = a + (l.map f).sum := by
  induction l generalizing a with
  | nil => simp
  | cons x xs ih => simp [ih, add_assoc]

/-- Every exception a single parse attempt can raise is one the source's
except clause catches (ValueError from a failed format, TypeError from a
non-string scalar). -/
theorem tryFormat_error_caught (f : Fmt) (v : Pv) (e : PyErr)
    (h : tryFormat f v = Except.error e) : isCaught e = true := by
  cases v with
  | str s =>
    cases hp : rawParse f s with
    | some p =>
      cases hr : tsInRange ⟨p.1, p.2, 1⟩ with
      | false =>
        simp [tryFormat, hp, hr] at h
        subst h
        rfl
      | true => simp [tryFormat, hp, hr] at h
    | none =>
      simp [tryFormat, hp] at h
      subst h
      rfl
  | nan => simp [tryFormat] at h
  | num q =>
    simp [tryFormat] at h
    subst h
    rfl
  | date d => simp [tryFormat] at h

/-- On a string input, one format attempt succeeds with exactly the outcome
of fmtAttempt and otherwise raises a (caught) ValueError. -/
theorem tryFormat_str (f : Fmt) (s : String) :
    tryFormat f (Pv.str s) =
      match fmtAttempt f s with
      | some d => Except.ok (some d)
      | none => Except.error PyErr.valueError := by
  unfold tryFormat fmtAttempt
  cases hp : rawParse f s with
  | some p =>
    cases hr : tsInRange ⟨p.1, p.2, 1⟩ with
    | false => simp [hp, hr]
    | true => simp [hp, hr]
  | none => simp [hp]

/-- The format loop never lets an exception escape. -/
theorem convLoop_total (fs : List Fmt) (v : Pv) : ∃ r, convLoop fs v = Except.ok r := by
  induction fs with
  | nil => exact ⟨none, rfl⟩
  | cons f fs ih =>
    cases h : tryFormat f v with
    | ok r => exact ⟨r, by simp [convLoop, h]⟩
    | error e =>
      obtain ⟨r, hr⟩ := ih
      exact ⟨r, by simp [convLoop, h, tryFormat_error_caught f v e h, hr]⟩

/-- Nat.digitChar of a value below ten is a digit character. -/
theorem digitChar_isDigit (k : Nat) (h : k < 10) : (Nat.digitChar k).isDigit = true := by
  interval_cases k <;> decide

/-- Every character produced by the fueled digit extractor is a digit. -/
theorem natDigitsRevAux_digits (fuel : Nat) :
    ∀ n, ∀ c ∈ natDigitsRevAux fuel n, c.isDigit = true := by
  induction fuel with
  | zero =>
    intro n c hc
    simp [natDigitsRevAux] at hc
  | succ fuel ih =>
    intro n c hc
    by_cases h : n = 0
    · simp [natDigitsRevAux, h] at hc
    · simp only [natDigitsRevAux, if_neg h, List.mem_cons] at hc
      rcases hc with rfl | hc
      · exact digitChar_isDigit _ (Nat.mod_lt _ (by decide))
      · exact ih _ c hc

/-- Every character of the ungrouped integer part is a digit. -/
theorem intRevDigits_digits (n : Nat) : ∀ c ∈ intRevDigits n, c.isDigit = true := by
  intro c hc
  by_cases h : n = 0
  · simp [intRevDigits, h] at hc
    subst hc
    decide
  · simp only [intRevDigits, if_neg h, natDigitsRev] at hc
    exact natDigitsRevAux_digits n n c hc

/-- Grouping inserts only commas among the digits. -/
theorem group3rev_chars : ∀ l : List Char, (∀ c ∈ l, c.isDigit = true) →
    ∀ c ∈ group3rev l, c.isDigit = true ∨ c = ',' := by
  intro l
  induction l using group3rev.induct with
  | case1 a b c d rest ih =>
    intro hall e he
    simp only [group3rev, List.mem_cons] at he
    rcases he with rfl | rfl | rfl | rfl | he
    · exact Or.inl (hall e (by simp))
    · exact Or.inl (hall e (by simp))
    · exact Or.inl (hall e (by simp))
    · exact Or.inr rfl
    · exact ih (fun c hc => hall c (by simp [List.mem_cons] at hc ⊢; tauto)) e he
  | case2 l h =>
    intro hall e he
    have hl : group3rev l = l := by
      rcases l with _ | ⟨a, _ | ⟨b, _ | ⟨c, _ | ⟨d, rest⟩⟩⟩⟩
      · rfl
      · rfl
      · rfl
      · rfl
      · exact ((h a b c d rest rfl)).elim
    rw [hl] at he
    exact Or.inl (hall e he)

/-- The grouped integer part consists of digits and commas only. -/
theorem groupedInt_chars (n : Nat) : ∀ c ∈ groupedInt n, c.isDigit = true ∨ c = ',' := by
  intro c hc
  simp only [groupedInt, List.mem_reverse] at hc
  exact group3rev_chars _ (intRevDigits_digits n) c hc

/-- The two fraction characters are digits. -/
theorem twoDigits_digits (n : Nat) : ∀ c ∈ twoDigits n, c.isDigit = true := by
  intro c hc
  simp only [twoDigits, List.mem_cons, List.not_mem_nil, or_false] at hc
  rcases hc with rfl | rfl
  · exact digitChar_isDigit _ (Nat.mod_lt _ (by decide))
  · exact digitChar_isDigit _ (Nat.mod_lt _ (by decide))

/-- A digit character is not a comma. -/
theorem isDigit_ne_comma (c : Char) (h : c.isDigit = true) : c ≠ ',' := by
  intro heq
  subst heq
  exact absurd h (by decide)

/-- A digit character is not a dot. -/
theorem isDigit_ne_dot (c : Char) (h : c.isDigit = true) : c ≠ '.' := by
  intro heq
  subst heq
  exact absurd h (by decide)

/-- The separator swap fixes digit characters. -/
theorem swapChar_digit (c : Char) (h : c.isDigit = true) : swapChar c = c := by
  unfold swapChar
  rw [if_neg (isDigit_ne_comma c h), if_neg (isDigit_ne_dot c h)]

/-- Decomposition of a formatted nonzero number: digits-and-dots integer part
(possibly signed), a single comma, then exactly two fraction digits. -/
theorem format_brl_num_decomp (q : Rat) (h : q ≠ 0) :
    ∃ a b, format_brl (Pv.num q) = Pv.str (String.mk (a ++ [','] ++ b))
      ∧ b.length = 2 ∧ (∀ c ∈ b, c.isDigit = true)
      ∧ (∀ c ∈ a, c.isDigit = true ∨ c = '.' ∨ c = '-')
      ∧ ',' ∉ a := by
  refine ⟨((if q < 0 then ['-'] else []) ++
      groupedInt ((roundHalfEven (100 * |q|)).toNat / 100)).map swapChar,
    (twoDigits ((roundHalfEven (100 * |q|)).toNat % 100)).map swapChar, ?_, ?_, ?_, ?_, ?_⟩
  · simp [format_brl, h, swapSeps, pyFormat2f, List.map_append, swapChar]
  · simp [twoDigits]
  · intro c hc
    obtain ⟨c2, hc2, rfl⟩ := List.mem_map.mp hc
    rw [swapChar_digit c2 (twoDigits_digits _ c2 hc2)]
    exact twoDigits_digits _ c2 hc2
  · intro c hc
    obtain ⟨c2, hc2, rfl⟩ := List.mem_map.mp hc
    rcases List.mem_append.mp hc2 with hs | hg
    · by_cases hq : q < 0
      · rw [if_pos hq] at hs
        simp only [List.mem_cons, List.not_mem_nil, or_false] at hs
        subst hs
        exact Or.inr (Or.inr rfl)
      · rw [if_neg hq] at hs
        simp at hs
    · rcases groupedInt_chars _ c2 hg with hd | hcomma
      · rw [swapChar_digit c2 hd]
        exact Or.inl hd
      · subst hcomma
        exact Or.inr (Or.inl rfl)
  · intro hc
    obtain ⟨c2, hc2, heq⟩ := List.mem_map.mp hc
    rcases List.mem_append.mp hc2 with hs | hg
    · by_cases hq : q < 0
      · rw [if_pos hq] at hs
        simp only [List.mem_cons, List.not_mem_nil, or_false] at hs
        subst hs
        exact absurd heq (by decide)
      · rw [if_neg hq] at hs
        simp at hs
    · rcases groupedInt_chars _ c2 hg with hd | hcomma
      · rw [swapChar_digit c2 hd] at heq
        exact isDigit_ne_comma c2 hd heq
      · subst hcomma
        exact absurd heq (by decide)

/-- The lexicographic date order is total. -/
theorem ymdLe_total (a b : Ymd) : ymdLe a b = true ∨ ymdLe b a = true := by
  simp [ymdLe]
  omega

/-- The lexicographic date order is transitive. -/
theorem ymdLe_trans (a b c : Ymd) (h1 : ymdLe a b = true) (h2 : ymdLe b c = true) :
    ymdLe a c = true := by
  simp [ymdLe] at h1 h2 ⊢
  omega

/-- The cell order is total. -/
theorem pvLeB_total (a b : Pv) : pvLeB a b = true ∨ pvLeB b a = true := by
  cases a <;> cases b <;> simp [pvLeB, pvRank] <;>
    first
      | exact le_total _ _
      | exact ymdLe_total _ _

/-- The cell order is transitive. -/
theorem pvLeB_trans (a b c : Pv) (h1 : pvLeB a b = true) (h2 : pvLeB b c = true) :
    pvLeB a c = true := by
  cases a <;> cases b <;> cases c <;> simp_all [pvLeB, pvRank] <;>
    first
      | exact le_trans h1 h2
      | exact ymdLe_trans _ _ _ h1 h2

/-- The optional-date order is total. -/
theorem optDateLe_total (a b : Option Ymd) : optDateLe a b = true ∨ optDateLe b a = true := by
  cases a <;> cases b <;> simp [optDateLe] <;> exact ymdLe_total _ _

/-- The optional-date order is transitive. -/
theorem optDateLe_trans (a b c : Option Ymd) (h1 : optDateLe a b = true)
    (h2 : optDateLe b c = true) : optDateLe a c = true := by
  cases a <;> cases b <;> cases c <;> simp_all [optDateLe] <;>
    exact ymdLe_trans _ _ _ h1 h2

instance : IsTotal PRow rowLabelLeP := ⟨fun a b => pvLeB_total _ _⟩

instance : IsTrans PRow rowLabelLeP := ⟨fun a b c h1 h2 => pvLeB_trans _ _ _ h1 h2⟩

instance : IsTotal PRow rowDateLeP := ⟨fun a b => optDateLe_total _ _⟩

instance : IsTrans PRow rowDateLeP := ⟨fun a b c h1 h2 => optDateLe_trans _ _ _ h1 h2⟩

/-! ## Claims -/

/-- C9: normalize is total and never raises: on every input (strings, the
empty string, NaN, non-string numbers, already-a-date values) converter_mes
returns a canonical date or absent, and the exception-explicit model never
propagates an error; numbers and the empty string degrade to absent and
dates pass through. -/
theorem converter_mes_total :
    (∀ v, converter_mes_exc v = Except.ok (converter_mes v))
    ∧ converter_mes_exc (Pv.str "") = Except.ok none
    ∧ (∀ q, converter_mes_exc (Pv.num q) = Except.ok none)
    ∧ converter_mes_exc Pv.nan = Except.ok none
    ∧ (∀ d, converter_mes_exc (Pv.date d) = Except.ok (some d)) := by
  refine ⟨fun v => ?_, by rfl, fun q => ?_, by rfl, fun d => ?_⟩
  · obtain ⟨r, hr⟩ := convLoop_total formatos v
    simp [converter_mes, converter_mes_exc] at hr ⊢
    simp [hr]
  · simp [converter_mes_exc, formatos, convLoop, tryFormat, isCaught]
  · simp [converter_mes_exc, formatos, convLoop, tryFormat]

/-- C10: the cell formatter is idempotent: for every input,
format_brl (format_brl x) = format_brl x.  Every first pass yields a string
(numbers and NaN format, datetimes collapse to the literal ".,2f", strings
pass through the bare except clause), and a second pass leaves any string —
in particular format_brl's own output — unchanged. -/
theorem format_brl_idempotent : ∀ x, format_brl (format_brl x) = format_brl x := by
  intro x
  cases x with
  | nan => rfl
  | num q =>
    by_cases h : q = 0
    · simp [format_brl, h]
    · simp [format_brl, h]
  | str s => rfl
  | date d => rfl

/-- C1 (amended): converter_mes tries exactly the four formats YYYY-MM,
MM/YYYY, full month name + year, abbreviated month name + year, in that
priority order, returning the outcome of the first attempt that succeeds; a
label matching YYYY-MM whose first-of-month date lies within the pandas
Timestamp range yields the first day of that year/month, and a label on
which all four attempts fail (matching no format, or in-format but outside
the Timestamp range) yields absent. -/
theorem converter_mes_format_order :
    (∀ s p, parseYM s = some p → tsInRange ⟨p.1, p.2, 1⟩ = true →
        converter_mes (Pv.str s) = some ⟨p.1, p.2, 1⟩)
    ∧ (∀ s d, fmtAttempt Fmt.Ym s = some d → converter_mes (Pv.str s) = some d)
    ∧ (∀ s d, fmtAttempt Fmt.Ym s = none → fmtAttempt Fmt.mY s = some d →
        converter_mes (Pv.str s) = some d)
    ∧ (∀ s d, fmtAttempt Fmt.Ym s = none → fmtAttempt Fmt.mY s = none →
        fmtAttempt Fmt.BY s = some d → converter_mes (Pv.str s) = some d)
    ∧ (∀ s d, fmtAttempt Fmt.Ym s = none → fmtAttempt Fmt.mY s = none →
        fmtAttempt Fmt.BY s = none → fmtAttempt Fmt.bY s = some d →
        converter_mes (Pv.str s) = some d)
    ∧ (∀ s, fmtAttempt Fmt.Ym s = none → fmtAttempt Fmt.mY s = none →
        fmtAttempt Fmt.BY s = none → fmtAttempt Fmt.bY s = none →
        converter_mes (Pv.str s) = none) := by
  have key : ∀ s d, fmtAttempt Fmt.Ym s = some d →
      converter_mes (Pv.str s) = some d := by
    intro s d h
    simp [converter_mes, converter_mes_exc, formatos, convLoop, tryFormat_str, h]
  refine ⟨fun s p h1 h2 => key s ⟨p.1, p.2, 1⟩ (by simp [fmtAttempt, rawParse, h1, h2]), key,
    fun s d h1 h2 => ?_, fun s d h1 h2 h3 => ?_, fun s d h1 h2 h3 h4 => ?_,
    fun s h1 h2 h3 h4 => ?_⟩ <;>
    simp [converter_mes, converter_mes_exc, formatos, convLoop, tryFormat_str,
      isCaught, h1, h2]
  · simp [h3]
  · simp [h3, h4]
  · simp [h3, h4]

/-- Counterexample to C1 as frozen: the label 1500-01 matches the YYYY-MM
format (strptime parses it), yet the program returns absent rather than
1500-01-01, because constructing that timestamp raises OutOfBoundsDatetime
(a caught ValueError) and no later format matches. -/
theorem converter_mes_format_order_counterexample :
    parseYM "1500-01" = some (1500, 1)
    ∧ tsInRange ⟨1500, 1, 1⟩ = false
    ∧ converter_mes (Pv.str "1500-01") = none :=
  ⟨by decide, by decide, by decide⟩

/-- Witness for C1 (amended): 2023-05 is in range and resolves through the
first format to 2023-05-01; a label failing all four attempts is absent. -/
theorem converter_mes_format_order_witness :
    (parseYM "2023-05" = some (2023, 5)
      ∧ tsInRange ⟨2023, 5, 1⟩ = true
      ∧ converter_mes (Pv.str "2023-05") = some ⟨2023, 5, 1⟩)
    ∧ (fmtAttempt Fmt.Ym "not a month" = none
      ∧ fmtAttempt Fmt.mY "not a month" = none
      ∧ fmtAttempt Fmt.BY "not a month" = none
      ∧ fmtAttempt Fmt.bY "not a month" = none
      ∧ converter_mes (Pv.str "not a month") = none) :=
  ⟨⟨by decide, by decide,
    converter_mes_format_order.1 "2023-05" (2023, 5) (by decide) (by decide)⟩,
   ⟨by decide, by decide, by decide, by decide,
    converter_mes_format_order.2.2.2.2.2 "not a month" (by decide) (by decide)
      (by decide) (by decide)⟩⟩

/-- C2: axis resolution is all-or-nothing: when converter_mes yields absent
for every record the axis is RAW_LABEL and the rows are a lexicographic
sorting (by raw label) of the originals, none dropped; when at least one
label resolves, the axis is CALENDAR, exactly the unresolvable rows are
discarded, and the survivors are sorted ascending by canonical date. -/
theorem resolveAxis_all_or_nothing (rows : List PRow) :
    ((∀ r ∈ rows, rowDate r = none) →
      (resolveAxis rows).1 = Axis.rawLabel
      ∧ List.Perm (resolveAxis rows).2 rows
      ∧ ((∀ r ∈ rows, ∃ s, r.get mesCol = Pv.str s) →
          (resolveAxis rows).2.Pairwise (fun a b => labelStr a ≤ labelStr b)))
    ∧ ((∃ r ∈ rows, (rowDate r).isSome = true) →
      (resolveAxis rows).1 = Axis.calendar
      ∧ List.Perm (resolveAxis rows).2 (rows.filter (fun r => (rowDate r).isSome))
      ∧ (resolveAxis rows).2.Pairwise (fun a b => ∀ da db,
          rowDate a = some da → rowDate b = some db → ymdLe da db = true)) := by
  constructor
  · intro hall
    have hcond : rows.all (fun r => (rowDate r).isNone) = true := by
      simp only [List.all_eq_true]
      intro r hr
      simp [hall r hr]
    have hres : resolveAxis rows = (Axis.rawLabel, List.insertionSort rowLabelLeP rows) := by
      simp [resolveAxis, hcond]
    rw [hres]
    refine ⟨rfl, List.perm_insertionSort rowLabelLeP rows, fun hstr => ?_⟩
    have hsorted := List.sorted_insertionSort rowLabelLeP rows
    have hmem : ∀ r, r ∈ List.insertionSort rowLabelLeP rows → r ∈ rows := fun r hr =>
      (List.perm_insertionSort rowLabelLeP rows).mem_iff.mp hr
    refine List.Pairwise.imp_of_mem ?_ hsorted
    intro a b ha hb hab
    obtain ⟨sa, hsa⟩ := hstr a (hmem a ha)
    obtain ⟨sb, hsb⟩ := hstr b (hmem b hb)
    have hab2 : pvLeB (a.get mesCol) (b.get mesCol) = true := hab
    rw [hsa, hsb] at hab2
    simp only [pvLeB, decide_eq_true_eq] at hab2
    simpa [labelStr, hsa, hsb] using hab2
  · intro hex
    have hcond : rows.all (fun r => (rowDate r).isNone) = false := by
      obtain ⟨r, hr, hs⟩ := hex
      refine List.all_eq_false.mpr ⟨r, hr, ?_⟩
      cases hd : rowDate r with
      | none => rw [hd] at hs; simp at hs
      | some d => simp [hd]
    have hres : resolveAxis rows =
        (Axis.calendar,
          List.insertionSort rowDateLeP (rows.filter (fun r => (rowDate r).isSome))) := by
      simp [resolveAxis, hcond]
    rw [hres]
    refine ⟨rfl, List.perm_insertionSort rowDateLeP _, ?_⟩
    have hsorted := List.sorted_insertionSort rowDateLeP
      (rows.filter (fun r => (rowDate r).isSome))
    refine List.Pairwise.imp_of_mem ?_ hsorted
    intro a b _ _ hab da db hda hdb
    have hab2 : optDateLe (rowDate a) (rowDate b) = true := hab
    rw [hda, hdb] at hab2
    simpa [optDateLe] using hab2

/-- Witness for C2: a dataset of two unparsable labels keeps both rows in
label order on the RAW_LABEL axis; a mixed dataset resolves to the CALENDAR
axis, drops its bad row and sorts the two dated rows. -/
theorem resolveAxis_all_or_nothing_witness :
    ((resolveAxis [exampleMonthRow "x", exampleMonthRow "a"]).1 = Axis.rawLabel
      ∧ List.Perm (resolveAxis [exampleMonthRow "x", exampleMonthRow "a"]).2
          [exampleMonthRow "x", exampleMonthRow "a"]
      ∧ (resolveAxis [exampleMonthRow "x", exampleMonthRow "a"]).2.Pairwise
          (fun a b => labelStr a ≤ labelStr b))
    ∧ ((resolveAxis [exampleMonthRow "2023-02", exampleMonthRow "bad",
          exampleMonthRow "2023-01"]).1 = Axis.calendar
      ∧ List.Perm (resolveAxis [exampleMonthRow "2023-02", exampleMonthRow "bad",
          exampleMonthRow "2023-01"]).2
          ([exampleMonthRow "2023-02", exampleMonthRow "bad",
            exampleMonthRow "2023-01"].filter (fun r => (rowDate r).isSome))
      ∧ (resolveAxis [exampleMonthRow "2023-02", exampleMonthRow "bad",
          exampleMonthRow "2023-01"]).2.Pairwise (fun a b => ∀ da db,
            rowDate a = some da → rowDate b = some db → ymdLe da db = true)) := by
  constructor
  · have h := (resolveAxis_all_or_nothing [exampleMonthRow "x", exampleMonthRow "a"]).1
      (by decide)
    refine ⟨h.1, h.2.1, h.2.2 ?_⟩
    intro r hr
    simp only [List.mem_cons, List.not_mem_nil, or_false] at hr
    rcases hr with rfl | rfl
    · exact ⟨"x", rfl⟩
    · exact ⟨"a", rfl⟩
  · exact (resolveAxis_all_or_nothing [exampleMonthRow "2023-02", exampleMonthRow "bad",
      exampleMonthRow "2023-01"]).2 ⟨exampleMonthRow "2023-02", by decide, by decide⟩

/-- C5: computeSummary returns the four headline totals (sales, purchases,
principal tax, payroll) as sums over all records of the filtered frame,
independent of selectedMetrics; an absent column contributes 0 and an empty
dataset yields all-zero totals. -/
theorem computeSummary_headline :
    (∀ s1 s2 df, computeSummary s1 df = computeSummary s2 df)
    ∧ (∀ s df, computeSummary s df =
        (colSum df "VENDAS", colSum df "COMPRAS", colSum df "DAS", colSum df "FOLHA"))
    ∧ (∀ df c, c ∈ df.cols → colSum df c = (df.rows.map (fun r => toNum (r.get c))).sum)
    ∧ (∀ df c, c ∉ df.cols → colSum df c = 0)
    ∧ (∀ s df, df.rows = [] → computeSummary s df = (0, 0, 0, 0)) := by
  refine ⟨fun s1 s2 df => rfl, fun s df => rfl, fun df c h => ?_, fun df c h => ?_,
    fun s df h => ?_⟩
  · simp [colSum, h, foldl_add_eq_sum]
  · simp [colSum, h]
  · simp [computeSummary, colSum, h]

/-- Witness for C5: on the example frame the sales total is the sum over the
rows, a column absent from the frame totals 0, and the empty frame has
all-zero totals. -/
theorem computeSummary_headline_witness :
    colSum exampleFrame "VENDAS" =
      (exampleFrame.rows.map (fun r => toNum (r.get "VENDAS"))).sum
    ∧ colSum exampleFrame "FOLHA" = 0
    ∧ computeSummary [] ⟨[mesCol], []⟩ = (0, 0, 0, 0) :=
  ⟨computeSummary_headline.2.2.1 exampleFrame "VENDAS" (by decide),
   computeSummary_headline.2.2.2.1 exampleFrame "FOLHA" (by decide),
   computeSummary_headline.2.2.2.2 [] ⟨[mesCol], []⟩ rfl⟩

/-- C3: the expense vocabulary is exactly the 14-name metric vocabulary minus
sales and card/PIX (12 names); computeExpenseSeries intersects it with
selectedMetrics, omits the derived column entirely when the intersection is
empty, sums the present (non-NaN) values of that intersection per record
when every selected expense column exists in the frame, and raises KeyError
(aborting the run) when a selected expense column is missing. -/
theorem despesas_intersection :
    despesas_list = metrics_options.filter
      (fun c => decide (c ≠ "VENDAS" ∧ c ≠ "CARTAO E PIX"))
    ∧ despesas_list.length = 12
    ∧ metrics_options.length = 14
    ∧ (∀ sel c, c ∈ despesas_selecionadas sel ↔ c ∈ despesas_list ∧ c ∈ sel)
    ∧ (∀ sel df, despesas_selecionadas sel = [] →
        despesasTotais sel df = Except.ok none)
    ∧ (∀ sel df, despesas_selecionadas sel ≠ [] →
        (∀ c ∈ despesas_selecionadas sel, c ∈ df.cols) →
        despesasTotais sel df = Except.ok (some (df.rows.map (rowDespesasSum sel))))
    ∧ (∀ sel df, despesas_selecionadas sel ≠ [] →
        (∃ c ∈ despesas_selecionadas sel, c ∉ df.cols) →
        despesasTotais sel df = Except.error PyErr.keyError)
    ∧ (∀ sel r, rowDespesasSum sel r =
        ((despesas_selecionadas sel).map (fun c => toNum (r.get c))).sum) := by
  refine ⟨by decide, by decide, by decide, fun sel c => ?_, fun sel df h => ?_,
    fun sel df h hall => ?_, fun sel df h hex => ?_, fun sel r => ?_⟩
  · simp [despesas_selecionadas, List.mem_filter]
  · simp [despesasTotais, h]
  · have hc : (despesas_selecionadas sel).all (fun c => df.cols.contains c) = true := by
      simp only [List.all_eq_true, List.contains, List.elem_eq_mem, decide_eq_true_eq]
      exact hall
    simp only [despesasTotais]
    rw [if_neg h, if_pos hc]
  · have hc : ¬ ((despesas_selecionadas sel).all (fun c => df.cols.contains c) = true) := by
      obtain ⟨c, hcm, hcn⟩ := hex
      intro hcall
      exact hcn (by simpa using List.all_eq_true.mp hcall c hcm)
    simp only [despesasTotais]
    rw [if_neg h, if_neg hc]
  · simp [rowDespesasSum, foldl_add_eq_sum]

/-- Witness for C3: selecting only sales empties the intersection and omits
the derived column; selecting the present DAS column keeps it and sums per
record; selecting FOLHA, which the example frame lacks, raises KeyError. -/
theorem despesas_intersection_witness :
    despesasTotais ["VENDAS"] exampleFrame = Except.ok none
    ∧ despesasTotais ["DAS"] exampleFrame =
        Except.ok (some (exampleFrame.rows.map (rowDespesasSum ["DAS"])))
    ∧ despesasTotais ["DAS"] exampleFrame = Except.ok (some [10, 0])
    ∧ despesasTotais ["DAS", "FOLHA"] exampleFrame = Except.error PyErr.keyError :=
  ⟨despesas_intersection.2.2.2.2.1 ["VENDAS"] exampleFrame (by decide),
   despesas_intersection.2.2.2.2.2.1 ["DAS"] exampleFrame (by decide) (by decide),
   by rfl,
   despesas_intersection.2.2.2.2.2.2.1 ["DAS", "FOLHA"] exampleFrame (by decide)
     ⟨"FOLHA", by decide, by decide⟩⟩

/-- C6: filterByRange keeps exactly the records whose canonical date lies in
the inclusive range when the axis is CALENDAR and is the identity when the
axis is RAW_LABEL; over the Jan-Dec 2023 example, filtering to
[2023-03-01, 2023-05-31] retains exactly the March, April and May rows. -/
theorem filterByRange_inclusive :
    (∀ rows start stop, filterByRange Axis.rawLabel rows start stop = rows)
    ∧ (∀ rows start stop r, r ∈ filterByRange Axis.calendar rows start stop ↔
        r ∈ rows ∧ ∃ d, rowDate r = some d
          ∧ ymdLe start d = true ∧ ymdLe d stop = true)
    ∧ filterByRange Axis.calendar exampleYearRows ⟨2023, 3, 1⟩ ⟨2023, 5, 31⟩ =
        ["2023-03", "2023-04", "2023-05"].map exampleMonthRow := by
  refine ⟨fun rows start stop => rfl, fun rows start stop r => ?_, by decide⟩
  simp only [filterByRange, List.mem_filter, and_congr_right_iff]
  intro _
  cases h : rowDate r with
  | none => simp
  | some d => simp [h]

/-- Witness for C6 (its interval characterization applied at one concrete
row and range): the February row of the example year lies in the filtered
output for the range [2023-01-01, 2023-06-30]. -/
theorem filterByRange_inclusive_witness :
    exampleMonthRow "2023-02" ∈
      filterByRange Axis.calendar exampleYearRows ⟨2023, 1, 1⟩ ⟨2023, 6, 30⟩ :=
  (filterByRange_inclusive.2.1 exampleYearRows ⟨2023, 1, 1⟩ ⟨2023, 6, 30⟩
      (exampleMonthRow "2023-02")).mpr
    ⟨by decide, ⟨2023, 2, 1⟩, by decide, by decide, by decide⟩

/-- C8: a frame without the required MÊS column makes the pipeline stop with
the descriptive error before any aggregation, and a frame with the column
never produces that error (the aggregation result is returned). -/
theorem pipeline_requires_mes :
    (∀ df : Frame, mesCol ∉ df.cols → pipeline df = Except.error pipelineErrorMsg)
    ∧ (∀ df : Frame, mesCol ∈ df.cols → pipeline df = Except.ok (aggregate df)) := by
  refine ⟨fun df h => ?_, fun df h => ?_⟩
  · simp [pipeline, h]
  · simp [pipeline, h]

/-- Witness for C8: the frame missing MÊS errors out; the example frame with
MÊS aggregates. -/
theorem pipeline_requires_mes_witness :
    pipeline exampleFrameNoMes = Except.error pipelineErrorMsg
    ∧ pipeline exampleFrame = Except.ok (aggregate exampleFrame) :=
  ⟨pipeline_requires_mes.1 exampleFrameNoMes (by decide),
   pipeline_requires_mes.2 exampleFrame (by decide)⟩

/-- C7: every number that is neither missing nor zero is rendered with
thousands-separator ".", decimal-separator "," and exactly two decimal
places; 1234.5 renders as 1.234,50 under the plain convention, and the
currency-prefixed convention prepends the currency marker to the very same
grouped digits. -/
theorem format_brl_brazilian :
    format_brl (Pv.num (2469/2)) = Pv.str "1.234,50"
    ∧ (∀ q : Rat, q ≠ 0 → ∃ a b,
        format_brl (Pv.num q) = Pv.str (String.mk (a ++ [','] ++ b))
        ∧ b.length = 2 ∧ (∀ c ∈ b, c.isDigit = true)
        ∧ (∀ c ∈ a, c.isDigit = true ∨ c = '.' ∨ c = '-')
        ∧ ',' ∉ a)
    ∧ format_brl_currency (Pv.num (2469/2)) = Pv.str "R$ 1.234,50"
    ∧ (∀ (q : Rat) (s : String), q ≠ 0 → format_brl (Pv.num q) = Pv.str s →
        format_brl_currency (Pv.num q) = Pv.str ("R$ " ++ s)) := by
  refine ⟨by decide, fun q h => format_brl_num_decomp q h, by decide, fun q s hq hs => ?_⟩
  obtain ⟨a, b, heq, hlen, _, _, _⟩ := format_brl_num_decomp q hq
  rw [hs] at heq
  simp only [Pv.str.injEq] at heq
  subst heq
  have hsne : String.mk (a ++ [','] ++ b) ≠ "" := by
    simp [String.ext_iff]
  simp only [format_brl_currency, hs]
  rw [if_neg hsne]

/-- Witness for C7: instantiating the decomposition at 1234.5 and the
currency relation at 150.5 (which formats as 150,50). -/
theorem format_brl_brazilian_witness :
    (∃ a b, format_brl (Pv.num (2469/2)) = Pv.str (String.mk (a ++ [','] ++ b))
      ∧ b.length = 2 ∧ (∀ c ∈ b, c.isDigit = true)
      ∧ (∀ c ∈ a, c.isDigit = true ∨ c = '.' ∨ c = '-')
      ∧ ',' ∉ a)
    ∧ format_brl_currency (Pv.num (301/2)) = Pv.str ("R$ " ++ "150,50") :=
  ⟨format_brl_brazilian.2.1 (2469/2) (by decide),
   format_brl_brazilian.2.2.2 (301/2) "150,50" (by decide) (by decide)⟩

/-- C4: the display table appends exactly one synthetic trailing row whose
numeric cells hold the column sums (NaN-skipping), whose label-column cell
is the literal Total marker and whose other text cells are empty; and in the
rendered table a missing or exactly-zero numeric value becomes the empty
string, never a formatted zero. -/
theorem buildDisplayTable_totals :
    (∀ c : Col, withTotalsRow c = colCells c ++ [totalCell c]
      ∧ (withTotalsRow c).length = (colCells c).length + 1)
    ∧ (∀ name vs, totalCell ⟨name, ColVals.nums vs⟩ =
        Pv.num ((vs.map (fun v => v.getD 0)).sum))
    ∧ (∀ vs, totalCell ⟨mesCol, ColVals.strs vs⟩ = Pv.str "Total")
    ∧ (∀ name vs, pyUpper name ≠ mesCol →
        totalCell ⟨name, ColVals.strs vs⟩ = Pv.str "")
    ∧ displayMapCell Pv.nan = Pv.str ""
    ∧ displayMapCell (Pv.num 0) = Pv.str ""
    ∧ (∀ q : Rat, q ≠ 0 → displayMapCell (Pv.num q) = format_brl (Pv.num q))
    ∧ (∀ cols, buildDisplayTable cols =
        cols.map (fun c => (c.name, (withTotalsRow c).map displayMapCell))) := by
  refine ⟨fun c => ⟨rfl, by simp [withTotalsRow]⟩, fun name vs => ?_, fun vs => ?_,
    fun name vs h => ?_, rfl, by decide, fun q h => ?_, fun cols => rfl⟩
  · simp [totalCell, sumOpt, foldl_add_eq_sum]
  · simp [totalCell]
    decide
  · simp [totalCell, h]
  · simp [displayMapCell, h]

/-- Witness for C4: a three-row table with sales values 100.5, 0 and 50
renders the totals cell as 150,50 while the zero cell renders empty, the
label column ends in Total, and a non-label text column ends in the empty
string. -/
theorem buildDisplayTable_totals_witness :
    buildDisplayTable
        [⟨"VENDAS", ColVals.nums [some (201/2), some 0, some 50]⟩,
         ⟨mesCol, ColVals.strs ["2023-01", "2023-02", "2023-03"]⟩,
         ⟨"OBS", ColVals.strs ["a", "b", "c"]⟩] =
      [("VENDAS", [Pv.str "100,50", Pv.str "", Pv.str "50,00", Pv.str "150,50"]),
       (mesCol, [Pv.str "2023-01", Pv.str "2023-02", Pv.str "2023-03", Pv.str "Total"]),
       ("OBS", [Pv.str "a", Pv.str "b", Pv.str "c", Pv.str ""])]
    ∧ totalCell ⟨"OBS", ColVals.strs ["a", "b", "c"]⟩ = Pv.str ""
    ∧ displayMapCell (Pv.num (201/2)) = format_brl (Pv.num (201/2)) :=
  ⟨by decide,
   buildDisplayTable_totals.2.2.2.1 "OBS" ["a", "b", "c"] (by decide),
   buildDisplayTable_totals.2.2.2.2.2.2.1 (201/2) (by decide)⟩

end DashFiscal
